import Mathlib

/-
Shallow embedding of the bevy_baseview_vst_example plugin
(src/lib.rs and src/editor_app.rs).

Modelling conventions:
  - Floating point values (f32 / f64) are modelled as rationals; the
    f32 <-> f64 casts in the source are identities in the model.
  - crossbeam_channel bounded channels are modelled as a record holding
    capacity, FIFO buffer and connectivity.  Per the crossbeam contract,
    a blocking `send` on a bounded channel appends when there is room,
    blocks the caller while the queue is full and connected, and returns
    an error only when the channel is disconnected.
  - RwLock read/write guards are modelled as always succeeding (lock
    poisoning is out of scope); the source only skips work on a poisoned
    lock.
  - Bevy's `State::set` in the drag state machine is modelled as
    succeeding, since the systems that call it only run while the app is
    in the complementary state.
-/

namespace Demo

/-- Rust clamp, as in f64::clamp(self, lo, hi): lo when below, hi when
above, the value itself otherwise. -/
def rustClamp (x lo hi : ℚ) : ℚ :=
  if x < lo then lo else if hi < x then hi else x

/-- Rust numeric cast to usize of a non-negative-or-saturating float:
truncation, saturating at zero for negatives (for x ≥ 0 this is the
floor). -/
def rustAsUsize (x : ℚ) : ℕ :=
  x.floor.toNat

/-- editor_app.rs: enum ParamUpdate. -/
inductive ParamUpdate
  | gainUpdated (value : ℚ)
deriving DecidableEq

/-- editor_app.rs: enum HostToGui. -/
inductive HostToGui
  | paramUpdate (u : ParamUpdate)
deriving DecidableEq

/-- editor_app.rs: enum GuiToHost. -/
inductive GuiToHost
  | paramUpdate (u : ParamUpdate)
deriving DecidableEq

/-- A bounded crossbeam channel: capacity, FIFO buffer, and whether the
other endpoint is still alive. -/
structure Channel (α : Type) where
  cap : ℕ
  buf : List α
  connected : Bool
deriving DecidableEq

/-- Outcome of a blocking crossbeam `send` on a bounded channel. -/
inductive SendResult (α : Type)
  | ok (c : Channel α)
  | blocked
  | err
deriving DecidableEq

/-- crossbeam bounded send: error when disconnected, block while full,
append otherwise. -/
def Channel.send {α : Type} (c : Channel α) (m : α) : SendResult α :=
  if c.connected = false then SendResult.err
  else if c.cap ≤ c.buf.length then SendResult.blocked
  else SendResult.ok { c with buf := c.buf ++ [m] }

/-- lib.rs: struct BaseviewDemoParameters — the atomic gain plus the two
shared channel-endpoint slots. -/
structure BaseviewDemoParameters where
  gain : ℚ
  host_to_gui_tx : Option (Channel HostToGui)
  gui_to_host_rx : Option (Channel GuiToHost)
deriving DecidableEq

/-- lib.rs: PluginParameters::get_parameter. -/
def get_parameter (p : BaseviewDemoParameters) (index : ℤ) : ℚ :=
  if index = 0 then p.gain else 0

/-- Result of a set_parameter call: normal return, the caller blocked on
a full host-to-GUI queue, or the expect on the send fired.  Each
constructor carries the parameter state at that point (the gain write
happens before the send). -/
inductive SetParamOutcome
  | ok (p : BaseviewDemoParameters)
  | blocked (p : BaseviewDemoParameters)
  | panicked (p : BaseviewDemoParameters)
deriving DecidableEq

/-- The stored gain after a set_parameter call, whichever way the call
ended (the gain write precedes the send in the source). -/
def SetParamOutcome.gainAfter : SetParamOutcome → ℚ
  | SetParamOutcome.ok p => p.gain
  | SetParamOutcome.blocked p => p.gain
  | SetParamOutcome.panicked p => p.gain

/-- lib.rs: PluginParameters::set_parameter.  Writes the raw value to
the gain store when index is 0, then, if a host-to-GUI sender is
installed, performs a blocking send of GainUpdated(value) whose error is
unwrapped with expect. -/
def set_parameter (p : BaseviewDemoParameters) (index : ℤ) (value : ℚ) :
    SetParamOutcome :=
  let g1 := if index = 0 then value else p.gain
  match p.host_to_gui_tx with
  | none => SetParamOutcome.ok { p with gain := g1 }
  | some c =>
    match c.send (HostToGui.paramUpdate (ParamUpdate.gainUpdated value)) with
    | SendResult.ok c2 =>
        SetParamOutcome.ok { p with gain := g1, host_to_gui_tx := some c2 }
    | SendResult.blocked => SetParamOutcome.blocked { p with gain := g1 }
    | SendResult.err => SetParamOutcome.panicked { p with gain := g1 }

/-- Calls made on the host callback during GUI-message processing. -/
inductive HostCall
  | begin_edit (index : ℤ)
  | automate (index : ℤ) (value : ℚ)
  | end_edit (index : ℤ)
deriving DecidableEq

/-- lib.rs process_gui_msgs loop body: every drained message overwrites
updated_gain, so the fold keeps only the last queued value. -/
def consolidate (msgs : List GuiToHost) : Option ℚ :=
  msgs.foldl
    (fun _ m =>
      match m with
      | GuiToHost.paramUpdate (ParamUpdate.gainUpdated v) => some v)
    (none : Option ℚ)

/-- try_iter drains the GUI-to-host receiver buffer. -/
def drainRx (p : BaseviewDemoParameters) : BaseviewDemoParameters :=
  { p with gui_to_host_rx := p.gui_to_host_rx.map (fun c => { c with buf := [] }) }

/-- lib.rs: BaseviewDemo::process_gui_msgs.  Drains all pending
GUI-to-host events (when a receiver is installed), keeps the last gain
value, and on an update writes it to the store and issues one
begin_edit / automate / end_edit sequence. -/
def process_gui_msgs (p : BaseviewDemoParameters) :
    BaseviewDemoParameters × List HostCall :=
  let updated_gain :=
    match p.gui_to_host_rx with
    | some rx => consolidate rx.buf
    | none => none
  let p1 := drainRx p
  match updated_gain with
  | some new_gain =>
      ({ p1 with gain := new_gain },
       [HostCall.begin_edit 0, HostCall.automate 0 new_gain,
        HostCall.end_edit 0])
  | none => (p1, [])

/-- lib.rs: Plugin::process — one process_gui_msgs call, then the buffer
is scaled by the freshly read gain. -/
def process (p : BaseviewDemoParameters) (buffer : List (List ℚ)) :
    BaseviewDemoParameters × List HostCall × List (List ℚ) :=
  let r := process_gui_msgs p
  (r.1, r.2, buffer.map (fun ch => ch.map (fun s => s * r.1.gain)))

/-- lib.rs: Plugin::process_f64 — identical structure to process, with
the gain cast to f64 (identity in the model). -/
def process_f64 (p : BaseviewDemoParameters) (buffer : List (List ℚ)) :
    BaseviewDemoParameters × List HostCall × List (List ℚ) :=
  let r := process_gui_msgs p
  (r.1, r.2, buffer.map (fun ch => ch.map (fun s => s * r.1.gain)))

/-- Two-dimensional screen position (bevy Vec2). -/
structure Vec2 where
  x : ℚ
  y : ℚ
deriving DecidableEq

/-- editor_app.rs: enum AppState. -/
inductive AppState
  | Idle
  | AdjustingKnob
deriving DecidableEq

/-- editor_app.rs: struct GainValue — the GUI-cached committed gain plus
the optional proposed (mid-drag) gain. -/
structure GainValue where
  current : ℚ
  proposed : Option ℚ
deriving DecidableEq

/-- editor_app.rs: GainValue::new. -/
def GainValue.new (value : ℚ) : GainValue :=
  { current := value, proposed := none }

/-- The GUI-side state touched by the drag state machine: app state,
drag start position, gain value. -/
structure GuiState where
  appState : AppState
  dragStart : Option Vec2
  gainValue : GainValue
deriving DecidableEq

/-- editor_app.rs: update_from_host, one event — unconditionally
overwrite current and clear proposed. -/
def update_from_host_step (_g : GainValue) (m : HostToGui) : GainValue :=
  match m with
  | HostToGui.paramUpdate (ParamUpdate.gainUpdated v) =>
      { current := v, proposed := none }

/-- editor_app.rs: update_from_host over the events drained this frame. -/
def update_from_host (msgs : List HostToGui) (g : GainValue) : GainValue :=
  msgs.foldl update_from_host_step g

/-- editor_app.rs: host_to_gui_relay — drains the receiver and forwards
every message to the event queue, in order. -/
def host_to_gui_relay (c : Channel HostToGui) :
    Channel HostToGui × List HostToGui :=
  ({ c with buf := [] }, c.buf)

/-- Outcome of relaying the GUI frame's outbound events: finished (with
the count of messages dropped on send errors), or stuck blocking on a
full queue with the unsent tail. -/
inductive RelayOutcome
  | done (c : Channel GuiToHost) (dropped : ℕ)
  | blockedOn (c : Channel GuiToHost) (pending : List GuiToHost)
deriving DecidableEq

/-- editor_app.rs: gui_to_host_relay — blocking send of each event; a
send error is logged and the event discarded, but a full queue blocks
the GUI thread inside send. -/
def gui_to_host_relay :
    Channel GuiToHost → List GuiToHost → ℕ → RelayOutcome
  | c, [], dropped => RelayOutcome.done c dropped
  | c, m :: rest, dropped =>
    match c.send m with
    | SendResult.ok c2 => gui_to_host_relay c2 rest dropped
    | SendResult.err => gui_to_host_relay c rest (dropped + 1)
    | SendResult.blocked => RelayOutcome.blockedOn c (m :: rest)

/-- editor_app.rs: knob_activated, one tick while in AdjustingKnob.
Inputs: the primary window height, the current cursor position, and
whether the primary button was just released. Returns the new GUI state
and the GuiToHost events written this tick. -/
def knob_activated (windowHeight : ℚ) (cursor : Vec2) (justReleased : Bool)
    (s : GuiState) : GuiState × List GuiToHost :=
  if justReleased then
    let s1 : GuiState := { s with appState := AppState.Idle, dragStart := none }
    match s.gainValue.proposed with
    | some new_gain =>
        ({ s1 with gainValue := { s1.gainValue with current := new_gain } },
         [GuiToHost.paramUpdate (ParamUpdate.gainUpdated new_gain)])
    | none =>
        (s1, [GuiToHost.paramUpdate (ParamUpdate.gainUpdated s.gainValue.current)])
  else
    match s.dragStart with
    | none => (s, [])
    | some start =>
        let delta_y := start.y - cursor.y
        let pct := delta_y / (windowHeight / (3 / 2))
        let current_gain := s.gainValue.current
        let new_gain := rustClamp (current_gain + pct) 0 1
        ({ s with gainValue := { s.gainValue with proposed := some new_gain } },
         [GuiToHost.paramUpdate (ParamUpdate.gainUpdated new_gain)])

/-- editor_app.rs setup: the knob atlas is a 1 x 100 grid, so 100
frames. -/
def knobFrameCount : ℕ := 100

/-- editor_app.rs: knob_render — frame index is (count * gain) as usize,
clamped to [0, count-1], where gain is proposed if present else
current. -/
def knob_render_index (count : ℕ) (g : GainValue) : ℕ :=
  let gain := g.proposed.getD g.current
  min (rustAsUsize ((count : ℚ) * gain)) (count - 1)

/-- lib.rs: struct BaseviewDemoEditor (window_info omitted; the app
proxy is modelled by its presence). -/
structure BaseviewDemoEditor where
  params : BaseviewDemoParameters
  openFlag : Bool
  app : Bool
deriving DecidableEq

/-- lib.rs: Editor::open.  Returns false unchanged when already open;
otherwise creates the bounded(128) channel pair, pushes one pre-population
GainUpdated event carrying the current gain (the fresh connected empty
channel makes that send succeed), installs both endpoints into the shared
slots, and returns true. -/
def openEditor (e : BaseviewDemoEditor) : BaseviewDemoEditor × Bool :=
  if e.openFlag then (e, false)
  else
    let gui_tx : Channel HostToGui := { cap := 128, buf := [], connected := true }
    let host_rx : Channel GuiToHost := { cap := 128, buf := [], connected := true }
    let gui_tx2 : Channel HostToGui :=
      { gui_tx with
        buf := gui_tx.buf ++ [HostToGui.paramUpdate (ParamUpdate.gainUpdated e.params.gain)] }
    ({ e with
        params :=
          { e.params with
            host_to_gui_tx := some gui_tx2,
            gui_to_host_rx := some host_rx },
        openFlag := true,
        app := true },
     true)

/-- lib.rs: Editor::close — drop the app, clear both shared slots. -/
def closeEditor (e : BaseviewDemoEditor) : BaseviewDemoEditor :=
  { e with
    openFlag := false,
    app := false,
    params := { e.params with host_to_gui_tx := none, gui_to_host_rx := none } }

/-- lib.rs: Editor::is_open. -/
def is_open (e : BaseviewDemoEditor) : Bool :=
  e.openFlag

/-- Concrete parameter state used to instantiate theorems: three queued
drag ticks 0.2, 0.5, 0.9 awaiting the next buffer. -/
def exampleRx : Channel GuiToHost :=
  { cap := 128,
    buf := [GuiToHost.paramUpdate (ParamUpdate.gainUpdated (1 / 5)),
            GuiToHost.paramUpdate (ParamUpdate.gainUpdated (1 / 2)),
            GuiToHost.paramUpdate (ParamUpdate.gainUpdated (9 / 10))],
    connected := true }

/-- Concrete parameter state with the example receiver installed. -/
def exampleParams : BaseviewDemoParameters :=
  { gain := 1, host_to_gui_tx := none, gui_to_host_rx := some exampleRx }

/-- Concrete parameter state with no GUI attached. -/
def plainParams : BaseviewDemoParameters :=
  { gain := 1, host_to_gui_tx := none, gui_to_host_rx := none }

/-- Concrete parameter state whose receiver holds one out-of-range GUI
update (1.4). -/
def exampleRawParams : BaseviewDemoParameters :=
  { gain := 1,
    host_to_gui_tx := none,
    gui_to_host_rx :=
      some { cap := 128,
             buf := [GuiToHost.paramUpdate (ParamUpdate.gainUpdated (7 / 5))],
             connected := true } }

/-- Mid-drag GUI state: dragging with a proposed gain of 0.5. -/
def exampleReleaseState : GuiState :=
  { appState := AppState.AdjustingKnob,
    dragStart := some { x := 0, y := 0 },
    gainValue := { current := 0, proposed := some (1 / 2) } }

/-- Dragging GUI state with no movement yet (no proposed gain). -/
def exampleReleaseNoMove : GuiState :=
  { appState := AppState.AdjustingKnob,
    dragStart := some { x := 0, y := 0 },
    gainValue := { current := 1 / 4, proposed := none } }

/-- Dragging GUI state used to exercise one drag-move tick. -/
def exampleDragState : GuiState :=
  { appState := AppState.AdjustingKnob,
    dragStart := some { x := 10, y := 120 },
    gainValue := { current := 1 / 4, proposed := none } }

/-- A saturated host-to-GUI channel (capacity 1, one queued message,
still connected). -/
def fullGuiTx : Channel HostToGui :=
  { cap := 1, buf := [HostToGui.paramUpdate (ParamUpdate.gainUpdated 0)],
    connected := true }

/-- A disconnected host-to-GUI channel (GUI receiver dropped). -/
def dcGuiTx : Channel HostToGui :=
  { cap := 128, buf := [], connected := false }

/-- Parameter state whose host-to-GUI sender slot holds the saturated
channel. -/
def pFullTx : BaseviewDemoParameters :=
  { gain := 0, host_to_gui_tx := some fullGuiTx, gui_to_host_rx := none }

/-- Parameter state whose host-to-GUI sender slot holds the disconnected
channel. -/
def pDcTx : BaseviewDemoParameters :=
  { gain := 0, host_to_gui_tx := some dcGuiTx, gui_to_host_rx := none }

/-- A saturated GUI-to-host channel. -/
def fullHostTx : Channel GuiToHost :=
  { cap := 1, buf := [GuiToHost.paramUpdate (ParamUpdate.gainUpdated 0)],
    connected := true }

/-- A disconnected GUI-to-host channel. -/
def dcHostTx : Channel GuiToHost :=
  { cap := 128, buf := [], connected := false }

/-- A closed editor whose committed gain is 0.25. -/
def exampleClosedEditor : BaseviewDemoEditor :=
  { params := { gain := 1 / 4, host_to_gui_tx := none, gui_to_host_rx := none },
    openFlag := false,
    app := false }

/-- The editor obtained by opening the closed example editor. -/
def exampleOpenedEditor : BaseviewDemoEditor :=
  (openEditor exampleClosedEditor).1

/-- Parameter state with an installed, empty, connected host-to-GUI
sender. -/
def exampleTxParams : BaseviewDemoParameters :=
  { gain := 1,
    host_to_gui_tx := some { cap := 128, buf := [], connected := true },
    gui_to_host_rx := none }

/-- The last element of the fold wins: consolidate of any queue ending
in GainUpdated v is some v. -/
theorem consolidate_append_last (ms : List GuiToHost) (v : ℚ) :
    consolidate (ms ++ [GuiToHost.paramUpdate (ParamUpdate.gainUpdated v)])
      = some v := by
  simp [consolidate, List.foldl_append]

/-- C1. With a GUI-to-Host receiver attached, process_gui_msgs drains
the whole queue; when the queue ends in GainUpdated v (at least one
update), the store receives exactly v and exactly one
begin_edit / automate / end_edit sequence is issued, regardless of how
many events were queued; when the queue is empty, the gain is untouched
and no host call is made; and both process and process_f64 trigger
exactly this behaviour once per invocation. -/
theorem process_drains_and_coalesces (p : BaseviewDemoParameters)
    (ch : Channel GuiToHost) (hrx : p.gui_to_host_rx = some ch) :
    ((process_gui_msgs p).1.gui_to_host_rx = some { ch with buf := [] })
    ∧ (∀ (ms : List GuiToHost) (v : ℚ),
        ch.buf = ms ++ [GuiToHost.paramUpdate (ParamUpdate.gainUpdated v)] →
        (process_gui_msgs p).1.gain = v
        ∧ (process_gui_msgs p).2
            = [HostCall.begin_edit 0, HostCall.automate 0 v,
               HostCall.end_edit 0])
    ∧ (ch.buf = [] →
        (process_gui_msgs p).1.gain = p.gain ∧ (process_gui_msgs p).2 = [])
    ∧ (∀ buffer,
        process p buffer
          = ((process_gui_msgs p).1, (process_gui_msgs p).2,
             buffer.map (fun c => c.map (fun s => s * (process_gui_msgs p).1.gain))))
    ∧ (∀ buffer, process_f64 p buffer = process p buffer) := by
  refine ⟨?_, ?_, ?_, ?_, ?_⟩
  · simp [process_gui_msgs, drainRx, hrx]
    rcases h : consolidate ch.buf with _ | v <;> simp [h]
  · intro ms v hbuf
    simp [process_gui_msgs, drainRx, hrx, hbuf, consolidate_append_last]
  · intro hbuf
    simp [process_gui_msgs, drainRx, hrx, hbuf, consolidate]
  · intro buffer
    rfl
  · intro buffer
    rfl

/-- C1 witness: with drag ticks 0.2, 0.5, 0.9 queued, one buffer stores
0.9 and fires exactly one automation sequence carrying 0.9. -/
theorem process_drains_and_coalesces_witness :
    (process_gui_msgs exampleParams).1.gain = 9 / 10
    ∧ (process_gui_msgs exampleParams).2
        = [HostCall.begin_edit 0, HostCall.automate 0 (9 / 10),
           HostCall.end_edit 0]
    ∧ (process_gui_msgs exampleParams).1.gui_to_host_rx
        = some { exampleRx with buf := [] } := by
  have h := process_drains_and_coalesces exampleParams exampleRx rfl
  have h2 := h.2.1
    [GuiToHost.paramUpdate (ParamUpdate.gainUpdated (1 / 5)),
     GuiToHost.paramUpdate (ParamUpdate.gainUpdated (1 / 2))] (9 / 10) rfl
  exact ⟨h2.1, h2.2, h.1⟩

/-- C2 counterexample: set_parameter(0, 2.0) stores 2.0, not
clamp(2.0, 0, 1) = 1.0 — the store write path does not clamp. -/
theorem set_parameter_no_clamp_counterexample :
    (set_parameter plainParams 0 2).gainAfter = 2
    ∧ (set_parameter plainParams 0 2).gainAfter ≠ rustClamp 2 0 1 := by
  decide

/-- C2 amended: the Parameter Store write path stores the raw value
unclamped — set_parameter writes v itself for index 0 (and leaves the
gain for other indices), and the audio-thread consumer commits the last
received GUI value as-is; out-of-range writes are stored out of range,
neither clamped nor rejected. -/
theorem store_writes_raw_value (p : BaseviewDemoParameters) (index : ℤ)
    (v : ℚ) :
    (set_parameter p index v).gainAfter = (if index = 0 then v else p.gain)
    ∧ (∀ (ch : Channel GuiToHost) (ms : List GuiToHost) (w : ℚ),
        p.gui_to_host_rx = some ch →
        ch.buf = ms ++ [GuiToHost.paramUpdate (ParamUpdate.gainUpdated w)] →
        (process_gui_msgs p).1.gain = w) := by
  constructor
  · rcases htx : p.host_to_gui_tx with _ | c
    · simp [set_parameter, htx, SetParamOutcome.gainAfter]
    · cases hs : c.send (HostToGui.paramUpdate (ParamUpdate.gainUpdated v)) <;>
        simp [set_parameter, htx, hs, SetParamOutcome.gainAfter]
  · intro ch ms w hrx hbuf
    simp [process_gui_msgs, drainRx, hrx, hbuf, consolidate_append_last]

/-- C2 witness: a host write of 1.5 is stored as 1.5, and a queued GUI
update of 1.4 is committed as 1.4. -/
theorem store_writes_raw_value_witness :
    (set_parameter exampleRawParams 0 (3 / 2)).gainAfter = 3 / 2
    ∧ (process_gui_msgs exampleRawParams).1.gain = 7 / 5 := by
  have h := store_writes_raw_value exampleRawParams 0 (3 / 2)
  refine ⟨?_, ?_⟩
  · simpa using h.1
  · exact h.2 _ [] (7 / 5) rfl rfl

/-- C3. One drag-move tick (button still held) with gesture start s,
cursor p, window height h and cached committed gain g sets the proposed
gain to clamp(g + (s.y - p.y) / (h / 1.5), 0, 1) and emits exactly one
GuiToHost event carrying that value. -/
theorem drag_tick_formula (h : ℚ) (cursor : Vec2) (s : GuiState)
    (start : Vec2) (hs : s.dragStart = some start) :
    knob_activated h cursor false s
      = ({ s with gainValue :=
            { s.gainValue with
              proposed := some (rustClamp
                (s.gainValue.current + (start.y - cursor.y) / (h / (3 / 2)))
                0 1) } },
         [GuiToHost.paramUpdate (ParamUpdate.gainUpdated (rustClamp
            (s.gainValue.current + (start.y - cursor.y) / (h / (3 / 2)))
            0 1))]) := by
  simp [knob_activated, hs]

/-- C3 witness: start y 120, cursor y 20, window height 300, committed
gain 0.25: one tick proposes and emits clamp(0.25 + 100/200) = 0.75. -/
theorem drag_tick_formula_witness :
    knob_activated 300 { x := 10, y := 20 } false exampleDragState
      = ({ exampleDragState with
            gainValue := { current := 1 / 4, proposed := some (3 / 4) } },
         [GuiToHost.paramUpdate (ParamUpdate.gainUpdated (3 / 4))]) := by
  have h := drag_tick_formula 300 { x := 10, y := 20 } exampleDragState
    { x := 10, y := 120 } rfl
  rw [h]
  norm_num [exampleDragState, rustClamp]

/-- C4 counterexample: releasing the button with proposed gain 0.5 does
not clear the proposed gain — it stays present after the transition. -/
theorem release_clears_proposed_counterexample :
    (knob_activated 300 { x := 0, y := 0 } true exampleReleaseState).1.gainValue.proposed
      ≠ none := by
  decide

/-- C4 amended: on release the gesture start is cleared and the state
returns to Idle; an existing proposed gain becomes the new committed
gain and is emitted as one final event, and with no proposed gain the
unchanged committed gain is re-emitted; but the proposed gain is NOT
cleared by the release transition — it retains its value (it is only
reset later by a host-originated update). -/
theorem release_transition (h : ℚ) (cursor : Vec2) (s : GuiState) :
    (∀ ng, s.gainValue.proposed = some ng →
      knob_activated h cursor true s
        = ({ appState := AppState.Idle, dragStart := none,
             gainValue := { current := ng, proposed := some ng } },
           [GuiToHost.paramUpdate (ParamUpdate.gainUpdated ng)]))
    ∧ (s.gainValue.proposed = none →
      knob_activated h cursor true s
        = ({ appState := AppState.Idle, dragStart := none,
             gainValue := s.gainValue },
           [GuiToHost.paramUpdate (ParamUpdate.gainUpdated s.gainValue.current)])) := by
  constructor
  · intro ng hng
    simp [knob_activated, hng]
  · intro hng
    simp [knob_activated, hng]

/-- C4 witness: release with proposed 0.5 commits 0.5 (proposed kept as
some 0.5), and release without movement re-emits the committed 0.25. -/
theorem release_transition_witness :
    knob_activated 300 { x := 0, y := 0 } true exampleReleaseState
      = ({ appState := AppState.Idle, dragStart := none,
           gainValue := { current := 1 / 2, proposed := some (1 / 2) } },
         [GuiToHost.paramUpdate (ParamUpdate.gainUpdated (1 / 2))])
    ∧ knob_activated 300 { x := 0, y := 0 } true exampleReleaseNoMove
      = ({ appState := AppState.Idle, dragStart := none,
           gainValue := { current := 1 / 4, proposed := none } },
         [GuiToHost.paramUpdate (ParamUpdate.gainUpdated (1 / 4))]) := by
  exact ⟨(release_transition 300 { x := 0, y := 0 } exampleReleaseState).1
            (1 / 2) rfl,
         (release_transition 300 { x := 0, y := 0 } exampleReleaseNoMove).2 rfl⟩

/-- C5. A host-originated update event received by the GUI, whatever
the prior GUI gain state (including mid-drag with a proposed value),
unconditionally overwrites the cached committed gain with the event
value and sets the proposed gain to none; in particular the last event
of a frame's batch determines the resulting state. -/
theorem host_update_overwrites (gv : GainValue) (v : ℚ)
    (msgs : List HostToGui) :
    update_from_host_step gv (HostToGui.paramUpdate (ParamUpdate.gainUpdated v))
      = { current := v, proposed := none }
    ∧ update_from_host
        (msgs ++ [HostToGui.paramUpdate (ParamUpdate.gainUpdated v)]) gv
      = { current := v, proposed := none } := by
  refine ⟨rfl, ?_⟩
  simp [update_from_host, List.foldl_append, update_from_host_step]

/-- C6. Evaluation at the failing inputs: a send on a full, connected
bounded queue blocks the caller instead of failing and being discarded
(on both directions), and a send error on the set_parameter path is
unwrapped with expect — a hard failure — while only the GUI-to-host
relay logs and discards its send errors. -/
theorem send_full_blocks_and_expect_fires :
    set_parameter pFullTx 0 (1 / 2)
      = SetParamOutcome.blocked { pFullTx with gain := 1 / 2 }
    ∧ set_parameter pDcTx 0 (1 / 2)
      = SetParamOutcome.panicked { pDcTx with gain := 1 / 2 }
    ∧ gui_to_host_relay fullHostTx
        [GuiToHost.paramUpdate (ParamUpdate.gainUpdated (1 / 2))] 0
      = RelayOutcome.blockedOn fullHostTx
          [GuiToHost.paramUpdate (ParamUpdate.gainUpdated (1 / 2))]
    ∧ gui_to_host_relay dcHostTx
        [GuiToHost.paramUpdate (ParamUpdate.gainUpdated (1 / 2))] 0
      = RelayOutcome.done dcHostTx 1 := by
  refine ⟨rfl, rfl, rfl, rfl⟩

/-- C7. After close, both shared channel-endpoint slots are absent, the
committed gain is exactly what it was at close time (any uncommitted
GUI-side proposed gain is never consulted), every subsequent
set_parameter stores the value and returns normally without forwarding
or reaching the expect, and the per-buffer drain is a no-op. -/
theorem close_clears_slots (e : BaseviewDemoEditor) (index : ℤ) (v : ℚ) :
    (closeEditor e).params.host_to_gui_tx = none
    ∧ (closeEditor e).params.gui_to_host_rx = none
    ∧ (closeEditor e).params.gain = e.params.gain
    ∧ set_parameter (closeEditor e).params index v
        = SetParamOutcome.ok
            { (closeEditor e).params with
              gain := if index = 0 then v else e.params.gain }
    ∧ process_gui_msgs (closeEditor e).params = ((closeEditor e).params, []) := by
  refine ⟨rfl, rfl, rfl, ?_, ?_⟩
  · simp [closeEditor, set_parameter]
  · simp [closeEditor, process_gui_msgs, drainRx]

/-- C8. Calling open on an already-open editor returns false and leaves
the editor (surface and channel slots) unchanged; open on a closed
editor returns true, after which is_open is true and one app surface is
attached. -/
theorem open_idempotent_guard (e : BaseviewDemoEditor) :
    (e.openFlag = true → openEditor e = (e, false))
    ∧ (e.openFlag = false →
        (openEditor e).2 = true ∧ is_open (openEditor e).1 = true
        ∧ (openEditor e).1.app = true) := by
  constructor
  · intro h
    simp [openEditor, h]
  · intro h
    simp [openEditor, is_open, h]

/-- C8 witness: opening the opened example editor fails and changes
nothing; opening the closed example editor succeeds and reports open. -/
theorem open_idempotent_guard_witness :
    openEditor exampleOpenedEditor = (exampleOpenedEditor, false)
    ∧ (openEditor exampleClosedEditor).2 = true
    ∧ is_open (openEditor exampleClosedEditor).1 = true := by
  refine ⟨(open_idempotent_guard exampleOpenedEditor).1 rfl, ?_, ?_⟩
  · exact ((open_idempotent_guard exampleClosedEditor).2 rfl).1
  · exact ((open_idempotent_guard exampleClosedEditor).2 rfl).2.1

/-- C9. A successful open installs a host-to-GUI channel holding exactly
one pre-population event carrying the current committed gain; consuming
that event via the relay leaves the GUI cache at exactly that gain with
no proposed override, and the rendered knob frame index then equals
clamp(floor(frame_count * gain), 0, frame_count - 1) with frame_count =
100 (the rendered value being proposed-if-present, else committed). -/
theorem open_prepopulates (e : BaseviewDemoEditor) (he : e.openFlag = false) :
    (openEditor e).2 = true
    ∧ (openEditor e).1.params.host_to_gui_tx
        = some { cap := 128,
                 buf := [HostToGui.paramUpdate
                          (ParamUpdate.gainUpdated e.params.gain)],
                 connected := true }
    ∧ (∀ gv : GainValue,
        update_from_host
          (host_to_gui_relay
            { cap := 128,
              buf := [HostToGui.paramUpdate
                       (ParamUpdate.gainUpdated e.params.gain)],
              connected := true }).2 gv
          = { current := e.params.gain, proposed := none })
    ∧ ((knob_render_index knobFrameCount
          { current := e.params.gain, proposed := none } : ℤ)
        = max 0 (min ((knobFrameCount : ℤ) - 1)
            (((knobFrameCount : ℚ) * e.params.gain).floor))) := by
  refine ⟨?_, ?_, ?_, ?_⟩
  · simp [openEditor, he]
  · simp [openEditor, he]
  · intro gv
    simp [host_to_gui_relay, update_from_host, update_from_host_step]
  · simp only [knob_render_index, knobFrameCount, rustAsUsize,
      Option.getD_none]
    generalize ((100 : ℚ) * e.params.gain).floor = n
    omega

/-- C9 witness: opening the closed example editor (gain 0.25) succeeds,
queues exactly one event carrying 0.25, and the knob then renders frame
25 of 100. -/
theorem open_prepopulates_witness :
    (openEditor exampleClosedEditor).2 = true
    ∧ (openEditor exampleClosedEditor).1.params.host_to_gui_tx
        = some { cap := 128,
                 buf := [HostToGui.paramUpdate (ParamUpdate.gainUpdated (1 / 4))],
                 connected := true }
    ∧ knob_render_index knobFrameCount
        { current := 1 / 4, proposed := none } = 25 := by
  have h := open_prepopulates exampleClosedEditor rfl
  refine ⟨h.1, h.2.1, ?_⟩
  norm_num [knob_render_index, knobFrameCount, rustAsUsize,
    exampleClosedEditor, Rat.floor_def']
  decide

/-- C10. For a nonzero parameter index, get_parameter returns 0 and
set_parameter leaves the stored gain unchanged in every outcome, yet
when a host-to-GUI sender is installed (connected, with room) the call
still enqueues a GainUpdated event carrying the value; with no sender
installed it simply returns. -/
theorem nonzero_index_effects (p : BaseviewDemoParameters) (index : ℤ)
    (v : ℚ) (hidx : index ≠ 0) :
    get_parameter p index = 0
    ∧ (set_parameter p index v).gainAfter = p.gain
    ∧ (p.host_to_gui_tx = none → set_parameter p index v = SetParamOutcome.ok p)
    ∧ (∀ c, p.host_to_gui_tx = some c → c.connected = true →
        c.buf.length < c.cap →
        set_parameter p index v
          = SetParamOutcome.ok
              { p with
                host_to_gui_tx := some { c with
                  buf := c.buf
                    ++ [HostToGui.paramUpdate (ParamUpdate.gainUpdated v)] } }) := by
  refine ⟨?_, ?_, ?_, ?_⟩
  · simp [get_parameter, hidx]
  · rcases htx : p.host_to_gui_tx with _ | c
    · simp [set_parameter, htx, hidx, SetParamOutcome.gainAfter]
    · cases hs : c.send (HostToGui.paramUpdate (ParamUpdate.gainUpdated v)) <;>
        simp [set_parameter, htx, hs, hidx, SetParamOutcome.gainAfter]
  · intro h
    simp [set_parameter, h, hidx]
    rw [← h]
  · intro c hc hconn hlen
    have hnle : ¬ (c.cap ≤ c.buf.length) := Nat.not_le.mpr hlen
    simp [set_parameter, hc, hidx, Channel.send, hconn, hnle]

/-- C10 witness: with a connected empty sender installed,
set_parameter(1, 0.6) leaves the gain at 1, still enqueues the event
carrying 0.6, and get_parameter(1) is 0. -/
theorem nonzero_index_effects_witness :
    get_parameter exampleTxParams 1 = 0
    ∧ set_parameter exampleTxParams 1 (3 / 5)
        = SetParamOutcome.ok
            { exampleTxParams with
              host_to_gui_tx :=
                some { cap := 128,
                       buf := [HostToGui.paramUpdate (ParamUpdate.gainUpdated (3 / 5))],
                       connected := true } } := by
  have h := nonzero_index_effects exampleTxParams 1 (3 / 5) (by decide)
  refine ⟨h.1, ?_⟩
  have h4 := h.2.2.2
    { cap := 128, buf := [], connected := true } rfl rfl (by decide)
  simpa [exampleTxParams] using h4

end Demo
